import Mathlib

/-!
Shallow embedding of `src/lens_correction/meta_to_collection.py`
(AllenInstitute/em-lens-correction).

The embedding mirrors the Python source:
* `Edge` position codes are the `IntEnum` values of the source.
* `raster_pos_lookup` models the dict built by `create_raster_pos_dict`
  (later insertions overwrite earlier ones; a missing key is a `KeyError`,
  modelled by `Except.error`).
* `tile_from_raster_pos` / `tile_from_tile` model the neighbor resolver,
  including the implicit `return None` when no `elif` branch matches.
* `replaceTif` models Python's `str.replace(".tif", "")`: every
  non-overlapping occurrence is removed, scanning left to right.
* `matchesSamples` / `tilesSamples` / `process` model the main loop of
  `MetaToCollection.process`, with the `json.dump` argument captured in
  `ProcessResult.written` and the discarded richer structure in
  `ProcessResult.rich`.
-/

namespace LensCorrection

/-- `Edge.INVALID = 0` from the source's `IntEnum`. -/
def Edge.INVALID : Int := 0

/-- `Edge.CENTER = 1` from the source's `IntEnum` (unused). -/
def Edge.CENTER : Int := 1

/-- `Edge.LEFT = 2` from the source's `IntEnum`. -/
def Edge.LEFT : Int := 2

/-- `Edge.TOP = 3` from the source's `IntEnum`. -/
def Edge.TOP : Int := 3

/-- `Edge.RIGHT = 4` from the source's `IntEnum`. -/
def Edge.RIGHT : Int := 4

/-- One raw match record attached to a tile (`tile['matcher']` entries). -/
structure RawMatch where
  position : Int
  match_quality : Int
  pX : List Rat
  pY : List Rat
  qX : List Rat
  qY : List Rat
deriving DecidableEq

/-- `tile['img_meta']`: raster position `(col, row)` and stage position. -/
structure ImgMeta where
  raster_pos : Int × Int
  stage_pos : Rat × Rat
deriving DecidableEq

/-- One tile record of the metafile's data block. `matcher = none` models a
tile without the optional `'matcher'` key. -/
structure Tile where
  img_path : String
  img_meta : ImgMeta
  matcher : Option (List RawMatch)
deriving DecidableEq

/-- The dict key `str(col) + "_" + str(row)` used by the source. -/
def rasterKey (col row : Int) : String :=
  toString col ++ "_" ++ toString row

/-- The key of a tile's own raster position. -/
def tileKey (t : Tile) : String :=
  rasterKey t.img_meta.raster_pos.1 t.img_meta.raster_pos.2

/-- The dict built by `create_raster_pos_dict`: iterating `data`, each tile is
stored under its raster-pos key, later tiles overwriting earlier ones, so a
lookup returns the last tile with that key (or nothing: `KeyError`). -/
def raster_pos_lookup (data : List Tile) (k : String) : Option Tile :=
  (data.filter (fun t => tileKey t == k)).getLast?

/-- `tile_from_raster_pos`. A Python dict subscript on a missing key raises
`KeyError`, modelled as `Except.error`; the explicit `return None` branches
and the implicit fall-through `return None` are `Except.ok none`. -/
def tile_from_raster_pos (lookupD : String → Option Tile) (tcols : Int)
    (col row : Int) (direction : Option Int) : Except String (Option Tile) :=
  match direction with
  | none =>
    match lookupD (rasterKey col row) with
    | some t => .ok (some t)
    | none => .error ("KeyError: " ++ rasterKey col row)
  | some d =>
    if d = Edge.LEFT then
      if col > 0 then
        match lookupD (rasterKey (col - 1) row) with
        | some t => .ok (some t)
        | none => .error ("KeyError: " ++ rasterKey (col - 1) row)
      else .ok none
    else if d = Edge.RIGHT then
      if col < tcols then
        match lookupD (rasterKey (col + 1) row) with
        | some t => .ok (some t)
        | none => .error ("KeyError: " ++ rasterKey (col + 1) row)
      else .ok none
    else if d = Edge.TOP then
      if row > 0 then
        match lookupD (rasterKey col (row - 1)) with
        | some t => .ok (some t)
        | none => .error ("KeyError: " ++ rasterKey col (row - 1))
      else .ok none
    else .ok none

/-- `tile_from_tile`: unpack the tile's raster position and delegate. -/
def tile_from_tile (lookupD : String → Option Tile) (tcols : Int)
    (tile : Tile) (direction : Option Int) : Except String (Option Tile) :=
  tile_from_raster_pos lookupD tcols
    tile.img_meta.raster_pos.1 tile.img_meta.raster_pos.2 direction

/-- Python's `s.replace(".tif", "")` on the character list: remove every
non-overlapping occurrence of `.tif`, scanning left to right. -/
def replaceTif : List Char → List Char
  | [] => []
  | '.' :: 't' :: 'i' :: 'f' :: rest => replaceTif rest
  | c :: cs => c :: replaceTif cs

/-- The filename munging `pId.replace(".tif", "")` on strings. -/
def stripTif (s : String) : String :=
  String.mk (replaceTif s.data)

/-- Whether `.tif` occurs as a substring (same scan as `replaceTif`). -/
def hasTif : List Char → Bool
  | [] => false
  | '.' :: 't' :: 'i' :: 'f' :: _ => true
  | _ :: cs => hasTif cs

/-- The `matches` object placed in each emitted sample. -/
structure MatchPayload where
  p : List Rat × List Rat
  q : List Rat × List Rat
  w : List Rat
  match_count : Nat
deriving DecidableEq

/-- One emitted correspondence record (an element of `samples`). -/
structure Sample where
  pId : String
  qId : String
  pGroupId : String
  qGroupId : String
  «matches» : MatchPayload
deriving DecidableEq

/-- The sample appended for one surviving match: `p = [pX, pY]`,
`q = [qX, qY]`, `w = [1] * len(pX)`, `match_count = len(w)`, and
`qId = neighbor["img_path"].replace(".tif", "")`. -/
def mkSample (session_id pId : String) (neighbor : Tile) (m : RawMatch) :
    Sample :=
  let p := (m.pX, m.pY)
  let q := (m.qX, m.qY)
  let w : List Rat := List.replicate m.pX.length 1
  { pId := pId
    qId := stripTif neighbor.img_path
    pGroupId := session_id
    qGroupId := session_id
    «matches» := { p := p, q := q, w := w, match_count := w.length } }

/-- The inner `for match in tile['matcher']` loop: skip on the `-1` quality
sentinel, resolve the neighbor (propagating a `KeyError`), emit a sample when
the neighbor is truthy, and silently drop the match when it is `None`. -/
def matchesSamples (lookupD : String → Option Tile) (tcols : Int)
    (session_id : String) (tile : Tile) (pId : String) :
    List RawMatch → Except String (List Sample)
  | [] => .ok []
  | m :: ms =>
    if m.match_quality = -1 then
      matchesSamples lookupD tcols session_id tile pId ms
    else
      match tile_from_tile lookupD tcols tile (some m.position) with
      | .error e => .error e
      | .ok none => matchesSamples lookupD tcols session_id tile pId ms
      | .ok (some neighbor) =>
        match matchesSamples lookupD tcols session_id tile pId ms with
        | .error e => .error e
        | .ok rest => .ok (mkSample session_id pId neighbor m :: rest)

/-- The outer `for index, tile in enumerate(data)` loop, collecting the
`samples` list; a tile without the `'matcher'` key contributes nothing. -/
def tilesSamples (lookupD : String → Option Tile) (tcols : Int)
    (session_id : String) : List Tile → Except String (List Sample)
  | [] => .ok []
  | t :: ts =>
    match
      matchesSamples lookupD tcols session_id t (stripTif t.img_path)
        (t.matcher.getD []) with
    | .error e => .error e
    | .ok s1 =>
      match tilesSamples lookupD tcols session_id ts with
      | .error e => .error e
      | .ok rest => .ok (s1 ++ rest)

/-- Python's `max` over a list of ints: `ValueError` on an empty sequence. -/
def listMax : List Int → Except String Int
  | [] => .error "ValueError: max() arg is an empty sequence"
  | x :: xs => .ok (xs.foldl max x)

/-- `metadata['calibration']["highmag"]`. -/
structure Calibration where
  nm_per_pix : Rat
  angle : Rat
deriving DecidableEq

/-- The metadata block fields read by `process`. -/
structure Metadata where
  temca_id : String
  session_id : String
  specimen_id : String
  tape_id : Option String
  calibration : Calibration
deriving DecidableEq

/-- One entry of the `tilespecs` list built per tile. -/
structure Tilespec where
  tileId : String
  xstage : Rat
  ystage : Rat
deriving DecidableEq

/-- The tilespec appended for a tile (id munged, stage position copied). -/
def tilespecOf (tile : Tile) : Tilespec :=
  { tileId := stripTif tile.img_path
    xstage := tile.img_meta.stage_pos.1
    ystage := tile.img_meta.stage_pos.2 }

/-- The first value assigned to `output`: the dict carrying the collection,
the calibration block and the tilespecs. -/
structure RichOutput where
  collection : List Sample
  calibration : Calibration
  tilespecs : List Tilespec
deriving DecidableEq

/-- What one run of `process` produces: `written` is the value passed to
`json.dump` (after the reassignment `output = samples`), `rich` is the
richer dict computed just before and discarded. -/
structure ProcessResult where
  written : List Sample
  rich : RichOutput
deriving DecidableEq

/-- `MetaToCollection.process` after the file I/O: compute the grid bounds
(`max` raising on an empty data block), build the raster-pos dict, run the
extraction loop, assemble the rich dict, then overwrite `output` with the
bare `samples` list, which is what gets serialized. -/
def process (metadata : Metadata) (data : List Tile) :
    Except String ProcessResult := do
  let _trows ← listMax (data.map (fun t => t.img_meta.raster_pos.2))
  let tcols ← listMax (data.map (fun t => t.img_meta.raster_pos.1))
  let lookupD := raster_pos_lookup data
  let samples ← tilesSamples lookupD tcols metadata.session_id data
  let rich : RichOutput :=
    { collection := samples
      calibration := metadata.calibration
      tilespecs := data.map tilespecOf }
  pure { written := samples, rich := rich }

/-! ### Concrete fixtures

Small concrete sessions used to evaluate the definitions on explicit
inputs: a sparse grid with a gap, a pair with mismatched coordinate
arrays, and a well-formed two-tile row. -/

/-- A minimal metadata block for concrete runs. -/
def mdTest : Metadata :=
  { temca_id := "temca1"
    session_id := "sess1"
    specimen_id := "spec1"
    tape_id := none
    calibration := { nm_per_pix := 4, angle := 0 } }

/-- A LEFT-direction match with quality 0. -/
def matchL : RawMatch :=
  { position := Edge.LEFT, match_quality := 0
    pX := [1, 2], pY := [3, 4], qX := [5, 6], qY := [7, 8] }

/-- A RIGHT-direction match whose `pY`, `qX`, `qY` lengths disagree
with `pX`'s. -/
def matchBad : RawMatch :=
  { position := Edge.RIGHT, match_quality := 0
    pX := [1, 2], pY := [3], qX := [4], qY := [5, 6] }

/-- A well-formed RIGHT-direction match with three points per array. -/
def matchGood : RawMatch :=
  { position := Edge.RIGHT, match_quality := 0
    pX := [1, 2, 3], pY := [4, 5, 6], qX := [7, 8, 9], qY := [10, 11, 12] }

/-- A LEFT-direction match carrying the `-1` quality sentinel. -/
def matchSentinel : RawMatch :=
  { position := Edge.LEFT, match_quality := -1
    pX := [1], pY := [2], qX := [3], qY := [4] }

/-- Tile at raster position `(0, 0)`, no matches. -/
def tileA : Tile :=
  { img_path := "a.tif"
    img_meta := { raster_pos := (0, 0), stage_pos := (0, 0) }
    matcher := none }

/-- Tile at raster position `(2, 0)` with a LEFT match; cell `(1, 0)` of
this grid is unoccupied. -/
def tileGap : Tile :=
  { img_path := "b.tif"
    img_meta := { raster_pos := (2, 0), stage_pos := (0, 0) }
    matcher := some [matchL] }

/-- Tile at `(0, 0)` carrying the shape-mismatched match. -/
def tileP : Tile :=
  { img_path := "p.tif"
    img_meta := { raster_pos := (0, 0), stage_pos := (0, 0) }
    matcher := some [matchBad] }

/-- Tile at `(1, 0)`, no matches. -/
def tileQ : Tile :=
  { img_path := "q.tif"
    img_meta := { raster_pos := (1, 0), stage_pos := (0, 0) }
    matcher := none }

/-- Tile at `(0, 0)` whose path contains `.tif` twice. -/
def tileX : Tile :=
  { img_path := "x.tif.tif"
    img_meta := { raster_pos := (0, 0), stage_pos := (0, 0) }
    matcher := some [matchGood] }

/-- Tile at `(0, 0)` with one well-formed RIGHT match. -/
def tileG1 : Tile :=
  { img_path := "tile_001.tif"
    img_meta := { raster_pos := (0, 0), stage_pos := (10, 20) }
    matcher := some [matchGood] }

/-- Tile at `(1, 0)`, no matches. -/
def tileG2 : Tile :=
  { img_path := "tile_002.tif"
    img_meta := { raster_pos := (1, 0), stage_pos := (30, 20) }
    matcher := none }

/-- The sample emitted for `tileG1`'s match against `tileG2`. -/
def sampleGood : Sample := mkSample "sess1" "tile_001" tileG2 matchGood

/-- The full result of `process mdTest [tileG1, tileG2]`. -/
def resultGood : ProcessResult :=
  { written := [sampleGood]
    rich :=
      { collection := [sampleGood]
        calibration := mdTest.calibration
        tilespecs := [tilespecOf tileG1, tilespecOf tileG2] } }

/-! ### Helper lemmas -/

/-- Unfolding `replaceTif` at a head that does not start an occurrence. -/
lemma replaceTif_cons_ne (c : Char) (cs : List Char)
    (h : ∀ rest : List Char, c = '.' → cs = 't' :: 'i' :: 'f' :: rest → False) :
    replaceTif (c :: cs) = c :: replaceTif cs := by
  rw [replaceTif.eq_def]
  split
  · rename_i heq
    exact absurd heq (by simp)
  · rename_i rest heq
    obtain ⟨h1, h2⟩ := List.cons.inj heq
    exact (h rest h1 h2).elim
  · rename_i c2 cs2 hne heq
    obtain ⟨h1, h2⟩ := List.cons.inj heq
    subst h1
    subst h2
    rfl

/-- Unfolding `hasTif` at a head that does not start an occurrence. -/
lemma hasTif_cons_ne (c : Char) (cs : List Char)
    (h : ∀ rest : List Char, c = '.' → cs = 't' :: 'i' :: 'f' :: rest → False) :
    hasTif (c :: cs) = hasTif cs := by
  rw [hasTif.eq_def]
  split
  · rename_i heq
    exact absurd heq (by simp)
  · rename_i rest heq
    obtain ⟨h1, h2⟩ := List.cons.inj heq
    exact (h rest h1 h2).elim
  · rename_i c2 cs2 hne heq
    obtain ⟨h1, h2⟩ := List.cons.inj heq
    subst h1
    subst h2
    rfl

/-- A string without any `.tif` occurrence is left unchanged. -/
lemma replaceTif_no_occ : ∀ (s : List Char), hasTif s = false →
    replaceTif s = s := by
  intro s
  induction s using replaceTif.induct with
  | case1 => intro; rfl
  | case2 rest ih =>
    intro h
    simp [hasTif] at h
  | case3 c cs h1 ih =>
    intro h
    rw [hasTif_cons_ne c cs h1] at h
    rw [replaceTif_cons_ne c cs h1, ih h]

/-- Appending the extension to an occurrence-free string and replacing
removes exactly that suffix. -/
lemma replaceTif_append_tif : ∀ (s : List Char), hasTif s = false →
    replaceTif (s ++ ['.', 't', 'i', 'f']) = s := by
  intro s
  induction s using replaceTif.induct with
  | case1 => intro; rfl
  | case2 rest ih =>
    intro h
    simp [hasTif] at h
  | case3 c cs h1 ih =>
    intro h
    rw [hasTif_cons_ne c cs h1] at h
    rw [List.cons_append]
    rw [replaceTif_cons_ne c (cs ++ ['.', 't', 'i', 'f']) ?hne, ih h]
    case hne =>
      intro rest hc hcs
      rcases cs with _ | ⟨a, _ | ⟨b, _ | ⟨d, cs'⟩⟩⟩
      · simp at hcs
      · simp at hcs
      · simp at hcs
      · simp only [List.cons_append, List.cons.injEq] at hcs
        obtain ⟨ha, hb, hd, _⟩ := hcs
        exact h1 cs' hc (by rw [ha, hb, hd])

/-- Every sample produced by the inner match loop is `mkSample` of one of
the processed matches and some resolved neighbor. -/
lemma matchesSamples_mem (lookupD : String → Option Tile) (tcols : Int)
    (sid : String) (tile : Tile) (pId : String) :
    ∀ (ms : List RawMatch) (out : List Sample),
      matchesSamples lookupD tcols sid tile pId ms = .ok out →
      ∀ s ∈ out, ∃ m ∈ ms, ∃ nb, s = mkSample sid pId nb m := by
  intro ms
  induction ms with
  | nil =>
    intro out h s hs
    simp only [matchesSamples] at h
    injection h with h
    subst h
    simp at hs
  | cons m ms ih =>
    intro out h s hs
    simp only [matchesSamples] at h
    split at h
    · obtain ⟨m', hm', nb, hnb⟩ := ih out h s hs
      exact ⟨m', List.mem_cons_of_mem _ hm', nb, hnb⟩
    · split at h
      · cases h
      · obtain ⟨m', hm', nb, hnb⟩ := ih out h s hs
        exact ⟨m', List.mem_cons_of_mem _ hm', nb, hnb⟩
      · rename_i neighbor heq
        split at h
        · cases h
        · rename_i rest hrec
          injection h with h
          subst h
          rcases List.mem_cons.mp hs with hs | hs
          · exact ⟨m, List.mem_cons_self m ms, neighbor, hs⟩
          · obtain ⟨m', hm', nb, hnb⟩ := ih rest hrec s hs
            exact ⟨m', List.mem_cons_of_mem _ hm', nb, hnb⟩

/-- Every sample produced by the tile loop is `mkSample` of a source tile's
munged path, one of its matches, and some resolved neighbor. -/
lemma tilesSamples_mem (lookupD : String → Option Tile) (tcols : Int)
    (sid : String) :
    ∀ (tiles : List Tile) (out : List Sample),
      tilesSamples lookupD tcols sid tiles = .ok out →
      ∀ s ∈ out, ∃ t ∈ tiles, ∃ m ∈ t.matcher.getD [], ∃ nb,
        s = mkSample sid (stripTif t.img_path) nb m := by
  intro tiles
  induction tiles with
  | nil =>
    intro out h s hs
    simp only [tilesSamples] at h
    injection h with h
    subst h
    simp at hs
  | cons t ts ih =>
    intro out h s hs
    simp only [tilesSamples] at h
    split at h
    · cases h
    · rename_i s1 h1
      split at h
      · cases h
      · rename_i rest hrec
        injection h with h
        subst h
        rcases List.mem_append.mp hs with hs | hs
        · obtain ⟨m, hm, nb, hnb⟩ :=
            matchesSamples_mem lookupD tcols sid t (stripTif t.img_path)
              (t.matcher.getD []) s1 h1 s hs
          exact ⟨t, List.mem_cons_self t ts, m, hm, nb, hnb⟩
        · obtain ⟨t', ht', m, hm, nb, hnb⟩ := ih rest hrec s hs
          exact ⟨t', List.mem_cons_of_mem _ ht', m, hm, nb, hnb⟩

/-! ### Claim theorems -/

/-- C1, counterexample: on a sparse grid with tiles at `(0, 0)` and `(2, 0)`
only, a LEFT match on the tile at `(2, 0)` passes the boundary check
(`col > 0`) but its target cell `(1, 0)` is unoccupied; the resolver does
not return `none` — the dict subscript raises a `KeyError`, which
propagates out of `process`, so the match is not discarded silently. -/
theorem C1_counterexample :
    tile_from_raster_pos (raster_pos_lookup [tileA, tileGap]) 2 2 0
        (some Edge.LEFT)
      = .error "KeyError: 1_0"
    ∧ process mdTest [tileA, tileGap] = .error "KeyError: 1_0" :=
  ⟨rfl, rfl⟩

/-- C1, amended: for each direction in {LEFT, RIGHT, TOP}, when the
boundary check passes but the target grid cell is unoccupied, the neighbor
resolver raises a lookup error (Python `KeyError`) naming the missing cell
key; it returns `none` only when the boundary check itself fails. -/
theorem C1_gap_raises (lookupD : String → Option Tile) (tcols col row : Int) :
    (col > 0 → lookupD (rasterKey (col - 1) row) = none →
      tile_from_raster_pos lookupD tcols col row (some Edge.LEFT)
        = .error ("KeyError: " ++ rasterKey (col - 1) row))
    ∧ (col < tcols → lookupD (rasterKey (col + 1) row) = none →
        tile_from_raster_pos lookupD tcols col row (some Edge.RIGHT)
          = .error ("KeyError: " ++ rasterKey (col + 1) row))
    ∧ (row > 0 → lookupD (rasterKey col (row - 1)) = none →
        tile_from_raster_pos lookupD tcols col row (some Edge.TOP)
          = .error ("KeyError: " ++ rasterKey col (row - 1))) := by
  refine ⟨fun hb hlk => ?_, fun hb hlk => ?_, fun hb hlk => ?_⟩ <;>
    simp [tile_from_raster_pos, Edge.LEFT, Edge.RIGHT, Edge.TOP, hb, hlk]

/-- Witness for `C1_gap_raises` on the concrete sparse grid. -/
theorem C1_gap_raises_witness :
    tile_from_raster_pos (raster_pos_lookup [tileA, tileGap]) 2 2 0
        (some Edge.LEFT)
      = .error ("KeyError: " ++ rasterKey (2 - 1) 0) :=
  (C1_gap_raises (raster_pos_lookup [tileA, tileGap]) 2 2 0).1
    (by decide) (by decide)

/-- C2, counterexample: a match whose `pX` has length 2 but `pY` length 1,
with quality 0 and a resolving RIGHT neighbor, does not raise any error:
`process` succeeds and emits the malformed record as-is. -/
theorem C2_counterexample :
    process mdTest [tileP, tileQ]
      = .ok { written := [mkSample "sess1" "p" tileQ matchBad]
              rich := { collection := [mkSample "sess1" "p" tileQ matchBad]
                        calibration := mdTest.calibration
                        tilespecs := [tilespecOf tileP, tilespecOf tileQ] } }
    ∧ matchBad.pX.length ≠ matchBad.pY.length :=
  ⟨rfl, by decide⟩

/-- C2, amended: the extractor performs no shape validation at all; any
match whose quality is not `-1` and whose neighbor resolves is emitted
unchanged — `p`, `q` copied verbatim whatever their lengths, with the
weight array and `match_count` both derived from `len(pX)` alone. -/
theorem C2_no_shape_validation (lookupD : String → Option Tile) (tcols : Int)
    (sid : String) (tile : Tile) (pId : String) (m : RawMatch)
    (ms : List RawMatch) (rest : List Sample) (nb : Tile)
    (hq : m.match_quality ≠ -1)
    (hnb : tile_from_tile lookupD tcols tile (some m.position) = .ok (some nb))
    (hrest : matchesSamples lookupD tcols sid tile pId ms = .ok rest) :
    matchesSamples lookupD tcols sid tile pId (m :: ms)
      = .ok (mkSample sid pId nb m :: rest)
    ∧ (mkSample sid pId nb m).«matches».p = (m.pX, m.pY)
    ∧ (mkSample sid pId nb m).«matches».q = (m.qX, m.qY)
    ∧ (mkSample sid pId nb m).«matches».w = List.replicate m.pX.length 1
    ∧ (mkSample sid pId nb m).«matches».match_count = m.pX.length := by
  refine ⟨?_, rfl, rfl, rfl, by simp [mkSample]⟩
  simp only [matchesSamples, if_neg hq, hnb, hrest]

/-- Witness for `C2_no_shape_validation` on the mismatched match. -/
theorem C2_no_shape_validation_witness :
    matchesSamples (raster_pos_lookup [tileP, tileQ]) 1 "sess1" tileP "p"
        [matchBad]
      = .ok [mkSample "sess1" "p" tileQ matchBad]
    ∧ (mkSample "sess1" "p" tileQ matchBad).«matches».p
        = (matchBad.pX, matchBad.pY)
    ∧ (mkSample "sess1" "p" tileQ matchBad).«matches».q
        = (matchBad.qX, matchBad.qY)
    ∧ (mkSample "sess1" "p" tileQ matchBad).«matches».w
        = List.replicate matchBad.pX.length 1
    ∧ (mkSample "sess1" "p" tileQ matchBad).«matches».match_count
        = matchBad.pX.length :=
  C2_no_shape_validation (raster_pos_lookup [tileP, tileQ]) 1 "sess1" tileP
    "p" matchBad [] [] tileQ (by decide) rfl rfl

/-- C3, counterexample: the extraction loop appends a Correspondence whose
`p.y` has length 1 while `match_count` (and `len(p.x)`, `len(w)`) is 2, so
the five lengths are not all equal for arbitrary input records. -/
theorem C3_counterexample :
    tilesSamples (raster_pos_lookup [tileP, tileQ]) 1 "sess1" [tileP, tileQ]
      = .ok [mkSample "sess1" "p" tileQ matchBad]
    ∧ (mkSample "sess1" "p" tileQ matchBad).«matches».match_count = 2
    ∧ (mkSample "sess1" "p" tileQ matchBad).«matches».p.2.length = 1 :=
  ⟨rfl, rfl, rfl⟩

/-- C3, amended: for every Correspondence appended to the output,
`len(w) = len(p.x)` and `match_count = len(w)` hold unconditionally; the
full five-way equality `len(p.x) = len(p.y) = len(q.x) = len(q.y) = len(w)
= match_count` holds only under the assumption that every input match
record carries equal-length coordinate arrays. -/
theorem C3_lengths (lookupD : String → Option Tile) (tcols : Int)
    (sid : String) (tiles : List Tile) (out : List Sample)
    (h : tilesSamples lookupD tcols sid tiles = .ok out) :
    ∀ s ∈ out,
      (s.«matches».w.length = s.«matches».p.1.length
        ∧ s.«matches».match_count = s.«matches».w.length)
      ∧ ((∀ t ∈ tiles, ∀ m ∈ t.matcher.getD [],
            m.pY.length = m.pX.length ∧ m.qX.length = m.pX.length
              ∧ m.qY.length = m.pX.length) →
          (s.«matches».p.1.length = s.«matches».match_count
            ∧ s.«matches».p.2.length = s.«matches».match_count
            ∧ s.«matches».q.1.length = s.«matches».match_count
            ∧ s.«matches».q.2.length = s.«matches».match_count
            ∧ s.«matches».w.length = s.«matches».match_count)) := by
  intro s hs
  obtain ⟨t, ht, m, hm, nb, rfl⟩ :=
    tilesSamples_mem lookupD tcols sid tiles out h s hs
  constructor
  · exact ⟨by simp [mkSample], by simp [mkSample]⟩
  · intro hall
    obtain ⟨h1, h2, h3⟩ := hall t ht m hm
    refine ⟨by simp [mkSample], ?_, ?_, ?_, by simp [mkSample]⟩ <;>
      simp [mkSample, h1, h2, h3]

/-- Witness for `C3_lengths` on the well-formed two-tile session. -/
theorem C3_lengths_witness :
    (sampleGood.«matches».w.length = sampleGood.«matches».p.1.length
      ∧ sampleGood.«matches».match_count = sampleGood.«matches».w.length)
    ∧ ((∀ t ∈ [tileG1, tileG2], ∀ m ∈ t.matcher.getD [],
          m.pY.length = m.pX.length ∧ m.qX.length = m.pX.length
            ∧ m.qY.length = m.pX.length) →
        (sampleGood.«matches».p.1.length = sampleGood.«matches».match_count
          ∧ sampleGood.«matches».p.2.length = sampleGood.«matches».match_count
          ∧ sampleGood.«matches».q.1.length = sampleGood.«matches».match_count
          ∧ sampleGood.«matches».q.2.length = sampleGood.«matches».match_count
          ∧ sampleGood.«matches».w.length
              = sampleGood.«matches».match_count)) :=
  C3_lengths (raster_pos_lookup [tileG1, tileG2]) 1 "sess1" [tileG1, tileG2]
    [sampleGood] rfl sampleGood (by simp)

/-- C4, counterexample: the identifier is not produced by stripping the
final extension only — for the path `"x.tif.tif"`, which ends in `.tif`,
the emitted `pId` is `"x"` (every occurrence removed), not `"x.tif"`. -/
theorem C4_counterexample :
    tilesSamples (raster_pos_lookup [tileX, tileQ]) 1 "sess1" [tileX, tileQ]
      = .ok [mkSample "sess1" "x" tileQ matchGood]
    ∧ (mkSample "sess1" "x" tileQ matchGood).pId = "x"
    ∧ ¬ (mkSample "sess1" "x" tileQ matchGood).pId = "x.tif" :=
  ⟨rfl, rfl, by decide⟩

/-- C4, amended: `pId`/`qId` are derived with Python's
`replace(".tif", "")`, removing every occurrence of `.tif`. A path with no
occurrence is the unmodified identifier; a path whose only occurrence is
the trailing extension has exactly that suffix removed (so
`"tile_001.tif"` normalizes to `"tile_001"`); and every emitted `pId`/`qId`
is the munged image path of a source tile / resolved neighbor. -/
theorem C4_strip_behavior :
    (∀ s : List Char, hasTif s = false → replaceTif s = s)
    ∧ (∀ s : List Char, hasTif s = false →
        replaceTif (s ++ ['.', 't', 'i', 'f']) = s)
    ∧ stripTif "tile_001.tif" = "tile_001"
    ∧ stripTif "x.tif.tif" = "x"
    ∧ (∀ (lookupD : String → Option Tile) (tcols : Int) (sid : String)
        (tiles : List Tile) (out : List Sample),
          tilesSamples lookupD tcols sid tiles = .ok out →
          ∀ s ∈ out, (∃ t ∈ tiles, s.pId = stripTif t.img_path)
            ∧ (∃ nb : Tile, s.qId = stripTif nb.img_path)) := by
  refine ⟨replaceTif_no_occ, replaceTif_append_tif, rfl, rfl, ?_⟩
  intro lookupD tcols sid tiles out h s hs
  obtain ⟨t, ht, m, hm, nb, rfl⟩ :=
    tilesSamples_mem lookupD tcols sid tiles out h s hs
  exact ⟨⟨t, ht, rfl⟩, ⟨nb, rfl⟩⟩

/-- Witness for `C4_strip_behavior` on concrete strings and the concrete
double-extension session. -/
theorem C4_strip_behavior_witness :
    replaceTif "abc".data = "abc".data
    ∧ replaceTif ("tile_001".data ++ ['.', 't', 'i', 'f']) = "tile_001".data
    ∧ ((∃ t ∈ [tileX, tileQ],
          (mkSample "sess1" "x" tileQ matchGood).pId = stripTif t.img_path)
        ∧ (∃ nb : Tile,
            (mkSample "sess1" "x" tileQ matchGood).qId
              = stripTif nb.img_path)) :=
  ⟨C4_strip_behavior.1 "abc".data (by decide),
   C4_strip_behavior.2.1 "tile_001".data (by decide),
   C4_strip_behavior.2.2.2.2 (raster_pos_lookup [tileX, tileQ]) 1 "sess1"
     [tileX, tileQ] [mkSample "sess1" "x" tileQ matchGood] rfl
     (mkSample "sess1" "x" tileQ matchGood) (by simp)⟩

/-- C5: a match whose quality score is the sentinel `-1` contributes
nothing: the loop result on `m :: ms` equals the result on `ms` for every
grid state, so the match is skipped before neighbor resolution (even a
grid state on which resolution would raise a `KeyError` is never
consulted), no Correspondence is emitted and no error is raised. -/
theorem C5_sentinel_skip (lookupD : String → Option Tile) (tcols : Int)
    (sid : String) (tile : Tile) (pId : String) (m : RawMatch)
    (ms : List RawMatch) (hq : m.match_quality = -1) :
    matchesSamples lookupD tcols sid tile pId (m :: ms)
      = matchesSamples lookupD tcols sid tile pId ms := by
  simp [matchesSamples, hq]

/-- Witness for `C5_sentinel_skip`: the sentinel match sits on the sparse
grid's tile whose LEFT lookup would raise, yet it is skipped cleanly. -/
theorem C5_sentinel_skip_witness :
    matchesSamples (raster_pos_lookup [tileA, tileGap]) 2 "sess1" tileGap "b"
        [matchSentinel]
      = matchesSamples (raster_pos_lookup [tileA, tileGap]) 2 "sess1" tileGap
          "b" [] :=
  C5_sentinel_skip (raster_pos_lookup [tileA, tileGap]) 2 "sess1" tileGap "b"
    matchSentinel [] (by decide)

/-- C6: with `tcols` the grid-wide maximum column, a RIGHT resolution at
`col = tcols` returns `none` (the test is the strict `col < tcols`), and a
RIGHT match on a tile in the maximum column is dropped without emitting a
Correspondence; for `col < tcols` with cell `(col + 1, row)` occupied,
RIGHT resolves to that occupant. -/
theorem C6_right_strict (lookupD : String → Option Tile) (data : List Tile)
    (tcols row col : Int) (t : Tile)
    (_hmax : listMax (data.map (fun t => t.img_meta.raster_pos.1))
      = .ok tcols) :
    tile_from_raster_pos lookupD tcols tcols row (some Edge.RIGHT) = .ok none
    ∧ (col < tcols → lookupD (rasterKey (col + 1) row) = some t →
        tile_from_raster_pos lookupD tcols col row (some Edge.RIGHT)
          = .ok (some t))
    ∧ (∀ (sid : String) (tile : Tile) (pId : String) (m : RawMatch)
        (ms : List RawMatch),
          tile.img_meta.raster_pos = (tcols, row) → m.position = Edge.RIGHT →
          matchesSamples lookupD tcols sid tile pId (m :: ms)
            = matchesSamples lookupD tcols sid tile pId ms) := by
  have hres : tile_from_raster_pos lookupD tcols tcols row (some Edge.RIGHT)
      = .ok none := by
    simp [tile_from_raster_pos, Edge.LEFT, Edge.RIGHT, Edge.TOP]
  refine ⟨hres, fun hlt hlk => ?_, ?_⟩
  · simp [tile_from_raster_pos, Edge.LEFT, Edge.RIGHT, Edge.TOP, hlt, hlk]
  · intro sid tile pId m ms hrp hpos
    by_cases hq : m.match_quality = -1
    · simp [matchesSamples, hq]
    · simp only [matchesSamples, if_neg hq, tile_from_tile, hpos, hrp, hres]

/-- Witness for `C6_right_strict` on the two-tile row whose maximum column
is 1. -/
theorem C6_right_strict_witness :
    tile_from_raster_pos (raster_pos_lookup [tileG1, tileG2]) 1 1 0
        (some Edge.RIGHT) = .ok none
    ∧ tile_from_raster_pos (raster_pos_lookup [tileG1, tileG2]) 1 0 0
        (some Edge.RIGHT) = .ok (some tileG2)
    ∧ matchesSamples (raster_pos_lookup [tileG1, tileG2]) 1 "sess1" tileG2
        "tile_002" [matchGood]
      = matchesSamples (raster_pos_lookup [tileG1, tileG2]) 1 "sess1" tileG2
          "tile_002" [] := by
  obtain ⟨h1, h2, h3⟩ :=
    C6_right_strict (raster_pos_lookup [tileG1, tileG2]) [tileG1, tileG2]
      1 0 0 tileG2 rfl
  exact ⟨h1, h2 (by decide) (by decide),
    h3 "sess1" tileG2 "tile_002" matchGood [] rfl rfl⟩

/-- C7: a tile at column 0 has no LEFT neighbor and a tile at row 0 has no
TOP neighbor, for every grid state and bound; and resolution is
deterministic — two pointwise-equal grid states produce identical results
for the same position and direction. -/
theorem C7_boundary_and_deterministic
    (lookupD lookupD2 : String → Option Tile) (tcols col row : Int)
    (d : Option Int) (hagree : ∀ k, lookupD k = lookupD2 k) :
    tile_from_raster_pos lookupD tcols 0 row (some Edge.LEFT) = .ok none
    ∧ tile_from_raster_pos lookupD tcols col 0 (some Edge.TOP) = .ok none
    ∧ tile_from_raster_pos lookupD tcols col row d
        = tile_from_raster_pos lookupD2 tcols col row d := by
  refine ⟨?_, ?_, ?_⟩
  · simp [tile_from_raster_pos, Edge.LEFT]
  · simp [tile_from_raster_pos, Edge.LEFT, Edge.RIGHT, Edge.TOP]
  · rw [funext hagree]

/-- Witness for `C7_boundary_and_deterministic` at the origin tile of the
concrete grid. -/
theorem C7_boundary_and_deterministic_witness :
    tile_from_raster_pos (raster_pos_lookup [tileG1, tileG2]) 1 0 0
        (some Edge.LEFT) = .ok none
    ∧ tile_from_raster_pos (raster_pos_lookup [tileG1, tileG2]) 1 0 0
        (some Edge.TOP) = .ok none
    ∧ tile_from_raster_pos (raster_pos_lookup [tileG1, tileG2]) 1 0 0
        (some Edge.RIGHT)
      = tile_from_raster_pos (raster_pos_lookup [tileG1, tileG2]) 1 0 0
          (some Edge.RIGHT) :=
  C7_boundary_and_deterministic (raster_pos_lookup [tileG1, tileG2])
    (raster_pos_lookup [tileG1, tileG2]) 1 0 0 (some Edge.RIGHT)
    (fun _ => rfl)

/-- C8, counterexample: calling the resolver with the out-of-range
direction codes CENTER and INVALID does not raise — it falls off the end
of the `if`/`elif` chain and returns a result (`None`). -/
theorem C8_counterexample :
    tile_from_raster_pos (raster_pos_lookup [tileG1, tileG2]) 1 0 0
        (some Edge.CENTER) = .ok none
    ∧ tile_from_raster_pos (raster_pos_lookup [tileG1, tileG2]) 1 0 0
        (some Edge.INVALID) = .ok none :=
  ⟨rfl, rfl⟩

/-- C8, amended: a direction value outside {LEFT, TOP, RIGHT} is not
rejected: the resolver silently returns `none` by falling through the
`if`/`elif` chain, and the extractor then discards such a match exactly as
it discards a boundary miss. -/
theorem C8_unknown_direction (lookupD : String → Option Tile) (tcols : Int)
    (col row : Int) (d : Int) (sid : String) (tile : Tile) (pId : String)
    (m : RawMatch) (ms : List RawMatch)
    (h2 : d ≠ Edge.LEFT) (h4 : d ≠ Edge.RIGHT) (h3 : d ≠ Edge.TOP)
    (hpos : m.position = d)
    (hrp : tile.img_meta.raster_pos = (col, row)) :
    tile_from_raster_pos lookupD tcols col row (some d) = .ok none
    ∧ matchesSamples lookupD tcols sid tile pId (m :: ms)
        = matchesSamples lookupD tcols sid tile pId ms := by
  have hres : tile_from_raster_pos lookupD tcols col row (some d)
      = .ok none := by
    simp [tile_from_raster_pos, h2, h4, h3]
  refine ⟨hres, ?_⟩
  by_cases hq : m.match_quality = -1
  · simp [matchesSamples, hq]
  · simp only [matchesSamples, if_neg hq, tile_from_tile, hpos, hrp, hres]

/-- Witness for `C8_unknown_direction` with the CENTER code. -/
theorem C8_unknown_direction_witness :
    tile_from_raster_pos (raster_pos_lookup [tileG1, tileG2]) 1 0 0
        (some Edge.CENTER) = .ok none
    ∧ matchesSamples (raster_pos_lookup [tileG1, tileG2]) 1 "sess1" tileG1
        "tile_001"
        [{ position := Edge.CENTER, match_quality := 0
           pX := [1], pY := [1], qX := [1], qY := [1] }]
      = matchesSamples (raster_pos_lookup [tileG1, tileG2]) 1 "sess1" tileG1
          "tile_001" [] :=
  C8_unknown_direction (raster_pos_lookup [tileG1, tileG2]) 1 0 0 Edge.CENTER
    "sess1" tileG1 "tile_001"
    { position := Edge.CENTER, match_quality := 0
      pX := [1], pY := [1], qX := [1], qY := [1] } []
    (by decide) (by decide) (by decide) rfl rfl

/-- C9: whenever `process` succeeds, the value handed to serialization
(`written`, i.e. the reassigned `output = samples`) is exactly the flat
collection list carried inside the richer in-memory structure — the richer
structure itself (calibration, tilespecs) is never what is written. -/
theorem C9_written_is_collection (metadata : Metadata) (data : List Tile)
    (r : ProcessResult) (h : process metadata data = .ok r) :
    r.written = r.rich.collection := by
  unfold process at h
  simp only [bind, Except.bind] at h
  cases h1 : listMax (data.map fun t => t.img_meta.raster_pos.2) with
  | error e =>
    rw [h1] at h
    exact Except.noConfusion h
  | ok trows =>
    rw [h1] at h
    dsimp only at h
    cases h2 : listMax (data.map fun t => t.img_meta.raster_pos.1) with
    | error e =>
      rw [h2] at h
      exact Except.noConfusion h
    | ok tcols =>
      rw [h2] at h
      dsimp only at h
      cases h3 : tilesSamples (raster_pos_lookup data) tcols
          metadata.session_id data with
      | error e =>
        rw [h3] at h
        exact Except.noConfusion h
      | ok samples =>
        rw [h3] at h
        dsimp only at h
        simp only [pure, Except.pure] at h
        injection h with h
        subst h
        rfl

/-- Witness for `C9_written_is_collection` on the concrete successful
session. -/
theorem C9_witness : resultGood.written = resultGood.rich.collection :=
  C9_written_is_collection mdTest [tileG1, tileG2] resultGood rfl

/-- C10: on an empty data block, `process` fails with Python's
`max()`-of-empty-sequence `ValueError` while computing the grid bounds,
before any output value is produced — it never returns a collection. -/
theorem C10_empty_data (metadata : Metadata) :
    listMax (([] : List Tile).map (fun t => t.img_meta.raster_pos.2))
      = .error "ValueError: max() arg is an empty sequence"
    ∧ process metadata []
        = .error "ValueError: max() arg is an empty sequence" :=
  ⟨rfl, rfl⟩

end LensCorrection
